import Mathlib

/-!
Shallow embedding of the event-sourced project/simulation core of the
repository: the shared reducer and normalizers (`src/shared/simulation.ts`)
and the authoritative in-memory store (`src/backend/projectStore.ts`).

JavaScript numbers are modelled as exact rationals (`ℚ`), strings as `String`.
Fields that the source guards with `??` / truthiness checks are modelled as
`Option`; object spreads are identities at the value level.  Impure inputs
(`randomUUID`, `new Date().toISOString()`) are passed as explicit parameters.
-/

namespace CiscoPT

/-- `'idle' | 'running' | 'paused' | 'stopped' | 'error'` -/
inductive SimulationStatus where
  | idle
  | running
  | paused
  | stopped
  | error
deriving DecidableEq, Repr

/-- `'up' | 'down' | 'testing'` -/
inductive InterfaceStatus where
  | up
  | down
  | testing
deriving DecidableEq, Repr

structure Point where
  x : ℚ
  y : ℚ
deriving DecidableEq, Repr

structure Size where
  width : ℚ
  height : ℚ
deriving DecidableEq, Repr

/-- `Record<string, unknown>` blobs, never inspected by the core. -/
abbrev Metadata := List (String × String)

structure DeviceInterface where
  id : String
  name : String
  macAddress : String
  ipv4 : Option String
  ipv6 : Option String
  status : InterfaceStatus
  metadata : Option Metadata
deriving DecidableEq, Repr

structure Device where
  id : String
  name : String
  role : String
  interfaces : Option (List DeviceInterface)
  configuration : String
  status : String
  position : Option Point
  notes : Option String
deriving DecidableEq, Repr

structure LinkEndpoint where
  deviceId : String
  interfaceId : String
deriving DecidableEq, Repr

structure Link where
  id : String
  label : Option String
  endpoints : LinkEndpoint × LinkEndpoint
  bandwidthMbps : ℚ
  latencyMs : ℚ
  status : String
  metadata : Option Metadata
deriving DecidableEq, Repr

structure TopologyLayer where
  id : String
  name : String
  type : String
  order : Option ℚ
  visible : Option Bool
  locked : Option Bool
  color : Option String
  description : Option String
  metadata : Option Metadata
deriving DecidableEq, Repr

structure CanvasAnnotation where
  id : String
  type : String
  position : Point
  size : Option Size
  rotationDeg : Option ℚ
  text : Option String
  color : Option String
  background : Option String
  metadata : Option Metadata
deriving DecidableEq, Repr

structure TopologyView where
  id : Option String
  name : Option String
  description : Option String
  zoom : Option ℚ
  pan : Option Point
  layerVisibility : Option (List (String × Bool))
deriving DecidableEq, Repr

structure NetworkTopology where
  devices : Option (List Device)
  links : Option (List Link)
  layers : Option (List TopologyLayer)
  annotations : Option (List CanvasAnnotation)
  views : Option (List TopologyView)
  metadata : Option Metadata
deriving DecidableEq, Repr

structure Packet where
  id : String
  source : LinkEndpoint
  destination : LinkEndpoint
  payloadType : String
  sizeBytes : ℚ
  ttl : ℚ
  payload : String
  createdAt : String
  metadata : Option Metadata
deriving DecidableEq, Repr

structure SimulationMetrics where
  totalPackets : ℚ
  droppedPackets : ℚ
  averageLatencyMs : ℚ
  throughputMbps : ℚ
deriving DecidableEq, Repr

structure SimulationState where
  status : SimulationStatus
  currentTick : ℚ
  startedAt : Option String
  stoppedAt : Option String
  lastEventId : Option String
  metrics : SimulationMetrics
deriving DecidableEq, Repr

structure PlaybackBookmark where
  id : String
  label : String
  eventId : String
  tick : ℚ
deriving DecidableEq, Repr

structure SimulationPlaybackState where
  isPlaying : Bool
  speedMultiplier : ℚ
  loop : Bool
  cursorEventId : Option String
  cursorTick : Option ℚ
  bookmarks : List PlaybackBookmark
deriving DecidableEq, Repr

/-- The closed tagged union of simulation events, minus the shared base. -/
inductive SimulationEventBody where
  | started (status : SimulationStatus)
  | paused (status : SimulationStatus)
  | resumed (status : SimulationStatus)
  | stopped (status : SimulationStatus)
  | tick (tick : ℚ)
  | packetTransmitted (packet : Packet) (linkId : String) (latencyMs : ℚ)
  | packetDropped (packet : Packet) (linkId : Option String) (reason : String)
  | interfaceStateChanged (deviceId : String) (interfaceId : String) (status : InterfaceStatus)
  | topologyUpdated (topology : NetworkTopology) (description : Option String)
  | metricsReplaced (metrics : SimulationMetrics)
deriving DecidableEq, Repr

/-- `SimulationEventBase &` one of the tagged variants. -/
structure SimulationEvent where
  id : String
  projectId : String
  timestamp : String
  body : SimulationEventBody
deriving DecidableEq, Repr

/-- The `event.type` discriminator string of a `SimulationEvent`. -/
def SimulationEvent.type (e : SimulationEvent) : String :=
  match e.body with
  | .started _ => "simulation.started"
  | .paused _ => "simulation.paused"
  | .resumed _ => "simulation.resumed"
  | .stopped _ => "simulation.stopped"
  | .tick _ => "simulation.tick"
  | .packetTransmitted _ _ _ => "packet.transmitted"
  | .packetDropped _ _ _ => "packet.dropped"
  | .interfaceStateChanged _ _ _ => "interface.state-changed"
  | .topologyUpdated _ _ => "topology.updated"
  | .metricsReplaced _ => "simulation.metrics"

structure ScenarioObjective where
  id : String
  description : String
  completed : Bool
deriving DecidableEq, Repr

structure Scenario where
  id : String
  name : String
  description : Option String
  difficulty : String
  objectives : Option (List ScenarioObjective)
  topologySnapshot : NetworkTopology
  createdAt : String
  updatedAt : String
  tags : Option (List String)
deriving DecidableEq, Repr

structure Project where
  id : String
  name : String
  description : Option String
  topology : NetworkTopology
  simulation : Option SimulationState
  eventLog : Option (List SimulationEvent)
  scenarios : Option (List Scenario)
  playback : Option SimulationPlaybackState
  createdAt : String
  updatedAt : String
  tags : Option (List String)
deriving DecidableEq, Repr

structure ProjectCreateRequest where
  name : String
  description : Option String
  topology : Option NetworkTopology
  tags : Option (List String)
  scenarios : Option (List Scenario)
deriving DecidableEq, Repr

/-- `Partial<SimulationState>` as used by `ProjectUpdateRequest`. -/
structure SimulationStateUpdate where
  status : Option SimulationStatus
  currentTick : Option ℚ
  startedAt : Option String
  stoppedAt : Option String
  lastEventId : Option String
  metrics : Option SimulationMetrics
deriving DecidableEq, Repr

/-- `Partial<SimulationPlaybackState>` as used by `ProjectUpdateRequest`. -/
structure SimulationPlaybackStateUpdate where
  isPlaying : Option Bool
  speedMultiplier : Option ℚ
  loop : Option Bool
  cursorEventId : Option String
  cursorTick : Option ℚ
  bookmarks : Option (List PlaybackBookmark)
deriving DecidableEq, Repr

structure ProjectUpdateRequest where
  name : Option String
  description : Option String
  topology : Option NetworkTopology
  simulation : Option SimulationStateUpdate
  playback : Option SimulationPlaybackStateUpdate
  scenarios : Option (List Scenario)
  tags : Option (List String)
deriving DecidableEq, Repr

/-! ### `src/shared/simulation.ts` -/

def MAX_EVENT_LOG_ENTRIES : ℕ := 500

def createInitialSimulationMetrics : SimulationMetrics :=
  { totalPackets := 0
    droppedPackets := 0
    averageLatencyMs := 0
    throughputMbps := 0 }

def createDefaultTopologyLayers : List TopologyLayer :=
  [ { id := "layer-physical"
      name := "Physical"
      type := "physical"
      order := some 0
      visible := some true
      locked := some false
      color := some "#0EA5E9"
      description := none
      metadata := none }
  , { id := "layer-logical"
      name := "Logical"
      type := "logical"
      order := some 1
      visible := some true
      locked := some false
      color := some "#F97316"
      description := none
      metadata := none }
  , { id := "layer-security"
      name := "Security"
      type := "security"
      order := some 2
      visible := some false
      locked := some false
      color := some "#10B981"
      description := none
      metadata := none }
  , { id := "layer-wireless"
      name := "Wireless"
      type := "wireless"
      order := some 3
      visible := some false
      locked := some false
      color := some "#A855F7"
      description := none
      metadata := none } ]

/-- The per-element hydration step of `cloneLayers`:
`{ ...layer, order: layer.order ?? index, visible: layer.visible ?? true,
   locked: layer.locked ?? false }`, with the map index made explicit. -/
def hydrateLayers : ℕ → List TopologyLayer → List TopologyLayer
  | _, [] => []
  | index, layer :: rest =>
      { layer with
        order := some (layer.order.getD (index : ℚ))
        visible := some (layer.visible.getD true)
        locked := some (layer.locked.getD false) } :: hydrateLayers (index + 1) rest

/-- The comparator `(a, b) => a.order - b.order` of `cloneLayers`, as the
corresponding total order on hydrated layers. -/
def layerLe (a b : TopologyLayer) : Prop :=
  a.order.getD 0 ≤ b.order.getD 0

instance : DecidableRel layerLe := fun a b =>
  inferInstanceAs (Decidable (a.order.getD 0 ≤ b.order.getD 0))

instance : IsTotal TopologyLayer layerLe :=
  ⟨fun a b => le_total (a.order.getD 0) (b.order.getD 0)⟩

instance : IsTrans TopologyLayer layerLe :=
  ⟨fun _ _ _ h h' => le_trans h h'⟩

/-- `cloneLayers`: hydrate the per-layer defaults, then sort by `order` with
JavaScript's stable `Array.prototype.sort` (modelled as a stable sort). -/
def cloneLayers (layers : List TopologyLayer) : List TopologyLayer :=
  (hydrateLayers 0 layers).insertionSort layerLe

/-- The per-device step of `normalizeTopology`: the spread copy is an identity
at the value level, `interfaces` is defaulted to `[]`. -/
def normalizeDevice (device : Device) : Device :=
  { device with interfaces := some (device.interfaces.getD []) }

/-- The per-view step of `normalizeTopology`, with the map index explicit. -/
def normalizeViews : ℕ → List TopologyView → List TopologyView
  | _, [] => []
  | index, view :: rest =>
      { id := some (view.id.getD ("view-" ++ toString index))
        name := some (view.name.getD ("View " ++ toString (index + 1)))
        description := view.description
        zoom := some (view.zoom.getD 1)
        pan := some (view.pan.getD { x := 0, y := 0 })
        layerVisibility := view.layerVisibility } :: normalizeViews (index + 1) rest

def normalizeTopology (topology : NetworkTopology) : NetworkTopology :=
  let devices := (topology.devices.getD []).map normalizeDevice
  let links := topology.links.getD []
  let layersSource :=
    match topology.layers with
    | some ls => if ls.length > 0 then ls else createDefaultTopologyLayers
    | none => createDefaultTopologyLayers
  let layers := cloneLayers layersSource
  let annotations := topology.annotations.getD []
  let views := normalizeViews 0 (topology.views.getD [])
  { devices := some devices
    links := some links
    layers := some layers
    annotations := some annotations
    views := some views
    metadata := topology.metadata }

def createInitialPlaybackState : SimulationPlaybackState :=
  { isPlaying := false
    speedMultiplier := 1
    loop := false
    cursorEventId := none
    cursorTick := some 0
    bookmarks := [] }

def ensurePlaybackState (playback : Option SimulationPlaybackState) : SimulationPlaybackState :=
  match playback with
  | some p =>
      { isPlaying := p.isPlaying
        speedMultiplier := if p.speedMultiplier > 0 then p.speedMultiplier else 1
        loop := p.loop
        cursorEventId := p.cursorEventId
        cursorTick := some (p.cursorTick.getD 0)
        bookmarks := p.bookmarks }
  | none =>
      { isPlaying := false
        speedMultiplier := 1
        loop := false
        cursorEventId := none
        cursorTick := some 0
        bookmarks := [] }

def ensureSimulationState (simulation : Option SimulationState) : SimulationState :=
  match simulation with
  | some s =>
      { status := s.status
        currentTick := s.currentTick
        startedAt := s.startedAt
        stoppedAt := s.stoppedAt
        lastEventId := s.lastEventId
        metrics := s.metrics }
  | none =>
      { status := .idle
        currentTick := 0
        startedAt := none
        stoppedAt := none
        lastEventId := none
        metrics := createInitialSimulationMetrics }

def normalizeScenario (scenario : Scenario) : Scenario :=
  { scenario with
    objectives := some (scenario.objectives.getD [])
    topologySnapshot := normalizeTopology scenario.topologySnapshot
    tags := some (scenario.tags.getD []) }

/-- `Array.prototype.slice(-n)`: the suffix of at most `n` elements. -/
def sliceLast (n : ℕ) (l : List SimulationEvent) : List SimulationEvent :=
  l.drop (l.length - n)

/-- The `interface.state-changed` branch of the reducer: find the device by id,
then the interface by id, and replace its status; otherwise change nothing. -/
def applyInterfaceStateChange (topology : NetworkTopology) (deviceId interfaceId : String)
    (status : InterfaceStatus) : NetworkTopology :=
  { topology with
    devices := topology.devices.map (fun ds =>
      ds.map (fun device =>
        if device.id = deviceId then
          { device with
            interfaces := device.interfaces.map (fun ifs =>
              ifs.map (fun iface =>
                if iface.id = interfaceId then { iface with status := status }
                else iface)) }
        else device)) }

def applySimulationEvent (project : Project) (event : SimulationEvent) : Project :=
  let simulation := ensureSimulationState project.simulation
  let playback := ensurePlaybackState project.playback
  let updatedSimulation := { simulation with lastEventId := some event.id }
  let updatedPlayback := { playback with cursorEventId := some event.id }
  let topology := normalizeTopology project.topology
  let branch : SimulationState × SimulationPlaybackState × NetworkTopology :=
    match event.body with
    | .started status =>
        ({ updatedSimulation with
           status := status
           startedAt := some event.timestamp
           currentTick := 0 },
         { updatedPlayback with isPlaying := true, cursorTick := some 0 },
         topology)
    | .resumed status =>
        ({ updatedSimulation with status := status },
         { updatedPlayback with isPlaying := true },
         topology)
    | .paused status =>
        ({ updatedSimulation with status := status },
         { updatedPlayback with isPlaying := false },
         topology)
    | .stopped status =>
        ({ updatedSimulation with status := status, stoppedAt := some event.timestamp },
         { updatedPlayback with isPlaying := false },
         topology)
    | .tick tick =>
        ({ updatedSimulation with currentTick := tick },
         { updatedPlayback with cursorTick := some tick },
         topology)
    | .metricsReplaced metrics =>
        ({ updatedSimulation with metrics := metrics },
         updatedPlayback,
         topology)
    | .interfaceStateChanged deviceId interfaceId status =>
        (updatedSimulation,
         updatedPlayback,
         applyInterfaceStateChange topology deviceId interfaceId status)
    | .topologyUpdated newTopology _ =>
        (updatedSimulation, updatedPlayback, normalizeTopology newTopology)
    | .packetTransmitted _ _ latencyMs =>
        let metrics := updatedSimulation.metrics
        let previousTotal := metrics.totalPackets
        let nextTotal := previousTotal + 1
        let nextAverage :=
          if previousTotal = 0 then latencyMs
          else (metrics.averageLatencyMs * previousTotal + latencyMs) / nextTotal
        ({ updatedSimulation with
           metrics := { metrics with totalPackets := nextTotal, averageLatencyMs := nextAverage } },
         updatedPlayback,
         topology)
    | .packetDropped _ _ _ =>
        let metrics := updatedSimulation.metrics
        ({ updatedSimulation with
           metrics := { metrics with droppedPackets := metrics.droppedPackets + 1 } },
         updatedPlayback,
         topology)
  let eventLog := project.eventLog.getD [] ++ [event]
  let trimmedEventLog :=
    if eventLog.length > MAX_EVENT_LOG_ENTRIES then sliceLast MAX_EVENT_LOG_ENTRIES eventLog
    else eventLog
  { project with
    topology := branch.2.2
    simulation := some branch.1
    playback := some branch.2.1
    updatedAt := event.timestamp
    eventLog := some trimmedEventLog }

def normalizeProject (project : Project) : Project :=
  let safeEventLog := project.eventLog.getD []
  { project with
    topology := normalizeTopology project.topology
    simulation := some (ensureSimulationState project.simulation)
    playback := some (ensurePlaybackState project.playback)
    scenarios := some ((project.scenarios.getD []).map normalizeScenario)
    eventLog := some (sliceLast MAX_EVENT_LOG_ENTRIES safeEventLog) }

/-! ### `src/backend/projectStore.ts` -/

/-- `createInitialProject`; `randomUUID()` and `new Date().toISOString()` are
passed in as `freshId` and `now`. -/
def createInitialProject (freshId now : String) (payload : ProjectCreateRequest) : Project :=
  normalizeProject
    { id := freshId
      name := payload.name
      description := payload.description
      topology := payload.topology.getD
        { devices := some []
          links := some []
          layers := none
          annotations := none
          views := none
          metadata := none }
      simulation := some (ensureSimulationState (some
        { status := .idle
          currentTick := 0
          startedAt := none
          stoppedAt := none
          lastEventId := none
          metrics := createInitialSimulationMetrics }))
      playback := some createInitialPlaybackState
      scenarios := some (payload.scenarios.getD [])
      eventLog := some []
      createdAt := now
      updatedAt := now
      tags := some (payload.tags.getD []) }

/-- The backing `Map<string, Project>`, as an insertion-ordered association list. -/
structure InMemoryProjectStore where
  projects : List (String × Project)
deriving DecidableEq, Repr

/-- `Map.prototype.get`. -/
def mapGet (m : List (String × Project)) (key : String) : Option Project :=
  match m with
  | [] => none
  | (k, v) :: rest => if k = key then some v else mapGet rest key

/-- `Map.prototype.set`: overwrite in place if present, else append. -/
def mapSet (m : List (String × Project)) (key : String) (value : Project) :
    List (String × Project) :=
  match m with
  | [] => [(key, value)]
  | (k, v) :: rest => if k = key then (k, value) :: rest else (k, v) :: mapSet rest key value

/-- `InMemoryProjectStore.recordEvent`, returning the result and the new store. -/
def InMemoryProjectStore.recordEvent (store : InMemoryProjectStore) (projectId : String)
    (event : SimulationEvent) : Option Project × InMemoryProjectStore :=
  match mapGet store.projects projectId with
  | none => (none, store)
  | some existing =>
      let project := applySimulationEvent existing event
      (some project, ⟨mapSet store.projects projectId project⟩)

/-- `InMemoryProjectStore.update`; `new Date().toISOString()` is the `now`
parameter.  The `{ ...existing.simulation, ...payload.simulation }` spread is
rendered field-by-field over the ensured base. -/
def InMemoryProjectStore.update (store : InMemoryProjectStore) (projectId : String)
    (payload : ProjectUpdateRequest) (now : String) : Option Project × InMemoryProjectStore :=
  match mapGet store.projects projectId with
  | none => (none, store)
  | some existing =>
      let updated := normalizeProject
        { existing with
          name := payload.name.getD existing.name
          description := payload.description.or existing.description
          topology := payload.topology.getD existing.topology
          simulation :=
            match payload.simulation with
            | some ps =>
                let base := ensureSimulationState existing.simulation
                some (ensureSimulationState (some
                  { status := ps.status.getD base.status
                    currentTick := ps.currentTick.getD base.currentTick
                    startedAt := ps.startedAt.or base.startedAt
                    stoppedAt := ps.stoppedAt.or base.stoppedAt
                    lastEventId := ps.lastEventId.or base.lastEventId
                    metrics := ps.metrics.getD base.metrics }))
            | none => existing.simulation
          playback :=
            match payload.playback with
            | some pp =>
                let base := existing.playback.getD createInitialPlaybackState
                some (ensurePlaybackState (some
                  { isPlaying := pp.isPlaying.getD base.isPlaying
                    speedMultiplier := pp.speedMultiplier.getD base.speedMultiplier
                    loop := pp.loop.getD base.loop
                    cursorEventId := pp.cursorEventId.or base.cursorEventId
                    cursorTick := pp.cursorTick.or base.cursorTick
                    bookmarks := pp.bookmarks.getD base.bookmarks }))
            | none => existing.playback
          scenarios := payload.scenarios.or existing.scenarios
          tags := payload.tags.or existing.tags
          updatedAt := now }
      (some updated, ⟨mapSet store.projects projectId updated⟩)

/-! ### Observers used by the theorems -/

/-- The simulation sub-state of an aggregate, through the same
`ensureSimulationState` guard the code uses on every access. -/
def metricsOf (project : Project) : SimulationMetrics :=
  (ensureSimulationState project.simulation).metrics

def simulationOf (project : Project) : SimulationState :=
  ensureSimulationState project.simulation

def playbackOf (project : Project) : SimulationPlaybackState :=
  ensurePlaybackState project.playback

def eventLogOf (project : Project) : List SimulationEvent :=
  project.eventLog.getD []

def SimulationEvent.isPacketTransmitted (e : SimulationEvent) : Bool :=
  match e.body with
  | .packetTransmitted _ _ _ => true
  | _ => false

def SimulationEvent.latencyOf (e : SimulationEvent) : ℚ :=
  match e.body with
  | .packetTransmitted _ _ latencyMs => latencyMs
  | _ => 0

/-! ### Normalization lemmas -/

/-- A layer whose hydrated fields are all present. -/
def TopologyLayer.hydrated (a : TopologyLayer) : Prop :=
  a.order.isSome ∧ a.visible.isSome ∧ a.locked.isSome

theorem hydrateLayers_length : ∀ (i : ℕ) (l : List TopologyLayer),
    (hydrateLayers i l).length = l.length := by
  intro i l
  induction l generalizing i with
  | nil => rfl
  | cons a t ih => simp [hydrateLayers, ih]

theorem mem_hydrateLayers_hydrated : ∀ (i : ℕ) (l : List TopologyLayer) (x : TopologyLayer),
    x ∈ hydrateLayers i l → x.hydrated := by
  intro i l
  induction l generalizing i with
  | nil => intro x hx; cases hx
  | cons a t ih =>
    intro x hx
    rcases List.mem_cons.mp hx with h | h
    · subst h
      exact ⟨rfl, rfl, rfl⟩
    · exact ih (i + 1) x h

theorem hydrateLayers_eq_self : ∀ (i : ℕ) (l : List TopologyLayer),
    (∀ x ∈ l, x.hydrated) → hydrateLayers i l = l := by
  intro i l
  induction l generalizing i with
  | nil => intro _; rfl
  | cons a t ih =>
    intro h
    obtain ⟨ho, hv, hl⟩ := h a (List.mem_cons_self a t)
    have ht : hydrateLayers (i + 1) t = t :=
      ih (i + 1) (fun x hx => h x (List.mem_cons_of_mem _ hx))
    simp only [hydrateLayers, ht]
    congr 1
    cases a with
    | mk id name type order visible locked color description metadata =>
      cases order <;> cases visible <;> cases locked <;> simp_all

theorem cloneLayers_length (l : List TopologyLayer) : (cloneLayers l).length = l.length := by
  unfold cloneLayers
  rw [List.length_insertionSort, hydrateLayers_length]

theorem cloneLayers_idem (l : List TopologyLayer) : cloneLayers (cloneLayers l) = cloneLayers l := by
  unfold cloneLayers
  rw [hydrateLayers_eq_self 0 _ (fun x hx =>
    mem_hydrateLayers_hydrated 0 l x ((List.mem_insertionSort layerLe).mp hx))]
  exact (List.sorted_insertionSort layerLe (hydrateLayers 0 l)).insertionSort_eq

/-- A view whose hydrated fields are all present. -/
def TopologyView.hydrated (v : TopologyView) : Prop :=
  v.id.isSome ∧ v.name.isSome ∧ v.zoom.isSome ∧ v.pan.isSome

theorem mem_normalizeViews_hydrated : ∀ (i : ℕ) (l : List TopologyView) (x : TopologyView),
    x ∈ normalizeViews i l → x.hydrated := by
  intro i l
  induction l generalizing i with
  | nil => intro x hx; cases hx
  | cons a t ih =>
    intro x hx
    rcases List.mem_cons.mp hx with h | h
    · subst h
      exact ⟨rfl, rfl, rfl, rfl⟩
    · exact ih (i + 1) x h

theorem normalizeViews_eq_self : ∀ (i : ℕ) (l : List TopologyView),
    (∀ x ∈ l, x.hydrated) → normalizeViews i l = l := by
  intro i l
  induction l generalizing i with
  | nil => intro _; rfl
  | cons a t ih =>
    intro h
    obtain ⟨hi, hn, hz, hp⟩ := h a (List.mem_cons_self a t)
    have ht : normalizeViews (i + 1) t = t :=
      ih (i + 1) (fun x hx => h x (List.mem_cons_of_mem _ hx))
    simp only [normalizeViews, ht]
    congr 1
    cases a with
    | mk id name description zoom pan layerVisibility =>
      cases id <;> cases name <;> cases zoom <;> cases pan <;> simp_all

theorem normalizeDevice_idem (d : Device) :
    normalizeDevice (normalizeDevice d) = normalizeDevice d := rfl

theorem normalizeTopology_idem (t : NetworkTopology) :
    normalizeTopology (normalizeTopology t) = normalizeTopology t := by
  unfold normalizeTopology
  simp only [Option.getD_some]
  have hdev : List.map normalizeDevice (List.map normalizeDevice (t.devices.getD [])) =
      List.map normalizeDevice (t.devices.getD []) := by
    rw [List.map_map]
    apply List.map_congr_left
    intro d _
    exact normalizeDevice_idem d
  have hlen : (cloneLayers (match t.layers with
      | some ls => if ls.length > 0 then ls else createDefaultTopologyLayers
      | none => createDefaultTopologyLayers)).length > 0 := by
    rw [cloneLayers_length]
    cases t.layers with
    | none => simp [createDefaultTopologyLayers]
    | some ls =>
      by_cases h : ls.length > 0
      · simp [h]
      · simp [h, createDefaultTopologyLayers]
  have hviews : normalizeViews 0 (normalizeViews 0 (t.views.getD [])) =
      normalizeViews 0 (t.views.getD []) :=
    normalizeViews_eq_self 0 _ (fun x hx => mem_normalizeViews_hydrated 0 _ x hx)
  rw [hdev, if_pos hlen, cloneLayers_idem, hviews]

theorem list_map_eq_self {α : Type} {f : α → α} :
    ∀ {l : List α}, (∀ x ∈ l, f x = x) → l.map f = l := by
  intro l
  induction l with
  | nil => intro _; rfl
  | cons a t ih =>
    intro h
    simp only [List.map_cons, h a (List.mem_cons_self a t),
      ih (fun x hx => h x (List.mem_cons_of_mem _ hx))]

theorem normalizeDevice_of_isSome {d : Device} (h : d.interfaces.isSome) :
    normalizeDevice d = d := by
  cases d with
  | mk id name role interfaces configuration status position notes =>
    obtain ⟨l, rfl⟩ := Option.isSome_iff_exists.mp h
    rfl

/-- Sufficient conditions for a topology to be a fixed point of
`normalizeTopology`. -/
theorem normalizeTopology_eq_self_of (t : NetworkTopology)
    (hdev : t.devices.isSome) (hd : ∀ d ∈ t.devices.getD [], d.interfaces.isSome)
    (hlk : t.links.isSome)
    (hly : ∃ ly, t.layers = some ly ∧ ly ≠ [] ∧ cloneLayers ly = ly)
    (han : t.annotations.isSome)
    (hvs : t.views.isSome) (hvh : ∀ v ∈ t.views.getD [], v.hydrated) :
    normalizeTopology t = t := by
  cases t with
  | mk devices links layers annotations views metadata =>
    obtain ⟨ds, rfl⟩ := Option.isSome_iff_exists.mp hdev
    obtain ⟨lk, rfl⟩ := Option.isSome_iff_exists.mp hlk
    obtain ⟨ly, hly', hne, hcl⟩ := hly
    obtain ⟨as_, rfl⟩ := Option.isSome_iff_exists.mp han
    obtain ⟨vs, rfl⟩ := Option.isSome_iff_exists.mp hvs
    cases hly'
    unfold normalizeTopology
    simp only [Option.getD_some]
    have h1 : List.map normalizeDevice ds = ds :=
      list_map_eq_self (fun d hdm => normalizeDevice_of_isSome (hd d hdm))
    have h2 : normalizeViews 0 vs = vs := normalizeViews_eq_self 0 vs hvh
    have hlen : ly.length > 0 := List.length_pos_of_ne_nil hne
    rw [h1, h2, if_pos hlen, hcl]

theorem normalizeTopology_layers_spec (t : NetworkTopology) :
    ∃ ly, (normalizeTopology t).layers = some ly ∧ ly ≠ [] ∧ cloneLayers ly = ly := by
  refine ⟨_, rfl, ?_, cloneLayers_idem _⟩
  apply List.ne_nil_of_length_pos
  rw [cloneLayers_length]
  cases t.layers with
  | none => simp [createDefaultTopologyLayers]
  | some ls =>
    by_cases h : ls.length > 0
    · simp [h]
    · simp [h, createDefaultTopologyLayers]

theorem normalizeDevice_interfaces_isSome (d : Device) :
    (normalizeDevice d).interfaces.isSome := rfl

/-- The per-device function of the `interface.state-changed` branch keeps
`interfaces` present. -/
theorem stateChangeDevice_interfaces_isSome (deviceId interfaceId : String)
    (st : InterfaceStatus) (d : Device) (h : d.interfaces.isSome) :
    (if d.id = deviceId then
      { d with
        interfaces := d.interfaces.map (fun ifs =>
          ifs.map (fun iface =>
            if iface.id = interfaceId then { iface with status := st } else iface)) }
     else d).interfaces.isSome := by
  split
  · obtain ⟨l, hl⟩ := Option.isSome_iff_exists.mp h
    simp [hl]
  · exact h

/-- The `interface.state-changed` modification preserves `normalizeTopology`
fixed points. -/
theorem normalizeTopology_applyInterfaceStateChange (t : NetworkTopology)
    (deviceId interfaceId : String) (st : InterfaceStatus) :
    normalizeTopology
        (applyInterfaceStateChange (normalizeTopology t) deviceId interfaceId st) =
      applyInterfaceStateChange (normalizeTopology t) deviceId interfaceId st := by
  apply normalizeTopology_eq_self_of
  · rfl
  · intro d hdm
    obtain ⟨d0, hd0, rfl⟩ := List.mem_map.mp hdm
    obtain ⟨d1, _, rfl⟩ := List.mem_map.mp hd0
    exact stateChangeDevice_interfaces_isSome deviceId interfaceId st _
      (normalizeDevice_interfaces_isSome d1)
  · rfl
  · exact normalizeTopology_layers_spec t
  · rfl
  · rfl
  · intro v hv
    exact mem_normalizeViews_hydrated 0 _ v hv

theorem ensureSimulationState_some (s : SimulationState) :
    ensureSimulationState (some s) = s := rfl

theorem ensurePlaybackState_speedMultiplier_pos (p : Option SimulationPlaybackState) :
    0 < (ensurePlaybackState p).speedMultiplier := by
  cases p with
  | none => norm_num [ensurePlaybackState]
  | some q =>
    simp only [ensurePlaybackState]
    split
    · assumption
    · norm_num

theorem ensurePlaybackState_cursorTick_isSome (p : Option SimulationPlaybackState) :
    (ensurePlaybackState p).cursorTick.isSome := by
  cases p <;> rfl

theorem ensurePlaybackState_some_eq_self (e : SimulationPlaybackState)
    (hpos : 0 < e.speedMultiplier) (hct : e.cursorTick.isSome) :
    ensurePlaybackState (some e) = e := by
  cases e with
  | mk isPlaying speedMultiplier loop cursorEventId cursorTick bookmarks =>
    obtain ⟨v, rfl⟩ := Option.isSome_iff_exists.mp hct
    simp_all [ensurePlaybackState]

theorem ensurePlaybackState_idem (p : Option SimulationPlaybackState) :
    ensurePlaybackState (some (ensurePlaybackState p)) = ensurePlaybackState p :=
  ensurePlaybackState_some_eq_self _ (ensurePlaybackState_speedMultiplier_pos p)
    (ensurePlaybackState_cursorTick_isSome p)

theorem normalizeScenario_idem (s : Scenario) :
    normalizeScenario (normalizeScenario s) = normalizeScenario s := by
  simp [normalizeScenario, normalizeTopology_idem]

theorem sliceLast_length_le (n : ℕ) (l : List SimulationEvent) :
    (sliceLast n l).length ≤ n := by
  simp only [sliceLast, List.length_drop]
  omega

theorem sliceLast_of_le {n : ℕ} {l : List SimulationEvent} (h : l.length ≤ n) :
    sliceLast n l = l := by
  simp [sliceLast, Nat.sub_eq_zero_of_le h]

theorem sliceLast_idem (n : ℕ) (l : List SimulationEvent) :
    sliceLast n (sliceLast n l) = sliceLast n l :=
  sliceLast_of_le (sliceLast_length_le n l)

theorem sliceLast_suffix (n : ℕ) (l : List SimulationEvent) : sliceLast n l <:+ l :=
  List.drop_suffix _ _

theorem normalizeProject_idem (p : Project) :
    normalizeProject (normalizeProject p) = normalizeProject p := by
  unfold normalizeProject
  simp only [Option.getD_some]
  have hsc : List.map normalizeScenario (List.map normalizeScenario (p.scenarios.getD [])) =
      List.map normalizeScenario (p.scenarios.getD []) := by
    rw [List.map_map]
    apply List.map_congr_left
    intro s _
    exact normalizeScenario_idem s
  rw [normalizeTopology_idem, hsc, sliceLast_idem, ensurePlaybackState_idem p.playback,
    ensureSimulationState_some]

set_option maxRecDepth 4000 in
theorem cloneLayers_default :
    cloneLayers createDefaultTopologyLayers = createDefaultTopologyLayers := by decide

theorem normalizeTopology_layers_default {t : NetworkTopology}
    (h : t.layers = none ∨ t.layers = some []) :
    (normalizeTopology t).layers = some createDefaultTopologyLayers := by
  rcases h with h | h <;> simp [normalizeTopology, h, cloneLayers_default]

/-! ### Concrete sample values used by witnesses and counterexamples -/

def samplePacket : Packet :=
  { id := "pkt-1"
    source := { deviceId := "d1", interfaceId := "i1" }
    destination := { deviceId := "d2", interfaceId := "i2" }
    payloadType := "data"
    sizeBytes := 64
    ttl := 16
    payload := ""
    createdAt := "2024-01-01T00:00:00.000Z"
    metadata := none }

def sampleProject : Project :=
  { id := "p-1"
    name := "Sample"
    description := none
    topology :=
      { devices := some []
        links := some []
        layers := none
        annotations := none
        views := none
        metadata := none }
    simulation := some
      { status := .idle
        currentTick := 0
        startedAt := none
        stoppedAt := none
        lastEventId := none
        metrics := createInitialSimulationMetrics }
    eventLog := some []
    scenarios := some []
    playback := some createInitialPlaybackState
    createdAt := "2024-01-01T00:00:00.000Z"
    updatedAt := "2024-01-01T00:00:00.000Z"
    tags := some [] }

def sampleTickEvent : SimulationEvent :=
  { id := "evt-tick", projectId := "p-1", timestamp := "t1", body := .tick 5 }

def sampleStartEvent : SimulationEvent :=
  { id := "evt-start", projectId := "p-1", timestamp := "t1", body := .started .running }

def sampleDropEvent : SimulationEvent :=
  { id := "evt-drop", projectId := "p-1", timestamp := "t1",
    body := .packetDropped samplePacket none "congestion" }

def sampleMetricsEvent : SimulationEvent :=
  { id := "evt-metrics", projectId := "p-1", timestamp := "t1",
    body := .metricsReplaced
      { totalPackets := 9, droppedPackets := 5, averageLatencyMs := 2, throughputMbps := 3 } }

def sampleTransmitEvent (id : String) (latencyMs : ℚ) : SimulationEvent :=
  { id := id, projectId := "p-1", timestamp := "t1",
    body := .packetTransmitted samplePacket "link-1" latencyMs }

def sampleStateChangeEvent : SimulationEvent :=
  { id := "evt-iface", projectId := "p-1", timestamp := "t1",
    body := .interfaceStateChanged "ghost-device" "ghost-interface" .up }

/-! ### Claim theorems -/

/-- Claim C3: normalization is idempotent: for every possibly partial or
untrusted project value `x`, `normalizeProject (normalizeProject x) =
normalizeProject x`. -/
theorem claim_C3_normalize_idempotent (x : Project) :
    normalizeProject (normalizeProject x) = normalizeProject x :=
  normalizeProject_idem x

/-- Claim C4: for every input aggregate and event, the reducer's output event
log has length at most 500 and is a suffix of the appended log (oldest entries
dropped); `normalizeProject` also bounds the log by 500. -/
theorem claim_C4_eventLog_bounded (p : Project) (e : SimulationEvent) :
    (eventLogOf (applySimulationEvent p e)).length ≤ MAX_EVENT_LOG_ENTRIES ∧
    eventLogOf (applySimulationEvent p e) <:+ (eventLogOf p ++ [e]) ∧
    (eventLogOf (normalizeProject p)).length ≤ MAX_EVENT_LOG_ENTRIES := by
  have h : eventLogOf (applySimulationEvent p e) =
      if (eventLogOf p ++ [e]).length > MAX_EVENT_LOG_ENTRIES then
        sliceLast MAX_EVENT_LOG_ENTRIES (eventLogOf p ++ [e])
      else eventLogOf p ++ [e] := by
    simp [eventLogOf, applySimulationEvent]
  have h2 : eventLogOf (normalizeProject p) =
      sliceLast MAX_EVENT_LOG_ENTRIES (p.eventLog.getD []) := by
    simp [eventLogOf, normalizeProject]
  refine ⟨?_, ?_, h2 ▸ sliceLast_length_le MAX_EVENT_LOG_ENTRIES (p.eventLog.getD [])⟩
  · rw [h]
    split
    · exact sliceLast_length_le _ _
    · omega
  · rw [h]
    split
    · exact sliceLast_suffix _ _
    · exact List.suffix_refl _

/-- Claim C7: for every aggregate and every event of every kind,
`simulation.lastEventId` of the reducer's output equals the event's id. -/
theorem claim_C7_lastEventId (p : Project) (e : SimulationEvent) :
    (simulationOf (applySimulationEvent p e)).lastEventId = some e.id := by
  rcases e with ⟨i, pid, ts, body⟩
  cases body <;> rfl

/-- Claim C9: the reducer always returns a normalized topology (a fixed point
of `normalizeTopology`); for events that are not about topology the returned
topology is exactly `normalizeTopology` of the input topology, so an aggregate
whose layers are absent or empty gets the four default seed layers. -/
theorem claim_C9_topology_normalized (p : Project) (e : SimulationEvent) :
    normalizeTopology ((applySimulationEvent p e).topology) =
      (applySimulationEvent p e).topology ∧
    (e.type ≠ "interface.state-changed" → e.type ≠ "topology.updated" →
      (applySimulationEvent p e).topology = normalizeTopology p.topology) ∧
    ((p.topology.layers = none ∨ p.topology.layers = some []) →
      e.type ≠ "interface.state-changed" → e.type ≠ "topology.updated" →
      (applySimulationEvent p e).topology.layers = some createDefaultTopologyLayers) := by
  rcases e with ⟨i, pid, ts, body⟩
  cases body with
  | interfaceStateChanged deviceId interfaceId st =>
    refine ⟨normalizeTopology_applyInterfaceStateChange p.topology deviceId interfaceId st,
      fun h1 _ => absurd rfl h1, fun _ h1 _ => absurd rfl h1⟩
  | topologyUpdated nt d =>
    refine ⟨normalizeTopology_idem nt, fun _ h2 => absurd rfl h2, fun _ _ h2 => absurd rfl h2⟩
  | started st =>
    exact ⟨normalizeTopology_idem p.topology, fun _ _ => rfl,
      fun hly _ _ => normalizeTopology_layers_default hly⟩
  | resumed st =>
    exact ⟨normalizeTopology_idem p.topology, fun _ _ => rfl,
      fun hly _ _ => normalizeTopology_layers_default hly⟩
  | paused st =>
    exact ⟨normalizeTopology_idem p.topology, fun _ _ => rfl,
      fun hly _ _ => normalizeTopology_layers_default hly⟩
  | stopped st =>
    exact ⟨normalizeTopology_idem p.topology, fun _ _ => rfl,
      fun hly _ _ => normalizeTopology_layers_default hly⟩
  | tick t =>
    exact ⟨normalizeTopology_idem p.topology, fun _ _ => rfl,
      fun hly _ _ => normalizeTopology_layers_default hly⟩
  | metricsReplaced m =>
    exact ⟨normalizeTopology_idem p.topology, fun _ _ => rfl,
      fun hly _ _ => normalizeTopology_layers_default hly⟩
  | packetTransmitted pk lid lat =>
    exact ⟨normalizeTopology_idem p.topology, fun _ _ => rfl,
      fun hly _ _ => normalizeTopology_layers_default hly⟩
  | packetDropped pk lid reason =>
    exact ⟨normalizeTopology_idem p.topology, fun _ _ => rfl,
      fun hly _ _ => normalizeTopology_layers_default hly⟩

/-- Witness for C9 at a concrete aggregate without layers and a
`simulation.tick` event. -/
theorem claim_C9_witness :
    (applySimulationEvent sampleProject sampleTickEvent).topology =
      normalizeTopology sampleProject.topology ∧
    (applySimulationEvent sampleProject sampleTickEvent).topology.layers =
      some createDefaultTopologyLayers :=
  ⟨(claim_C9_topology_normalized sampleProject sampleTickEvent).2.1 (by decide) (by decide),
   (claim_C9_topology_normalized sampleProject sampleTickEvent).2.2 (Or.inl rfl)
     (by decide) (by decide)⟩

/-- Claim C10: the reducer also maintains the playback substate:
`cursorEventId` always becomes the event id; started/resumed set `isPlaying`,
paused/stopped clear it, and `simulation.tick` moves `cursorTick`. -/
theorem claim_C10_playback (p : Project) (e : SimulationEvent) :
    (playbackOf (applySimulationEvent p e)).cursorEventId = some e.id ∧
    (∀ s : SimulationStatus, e.body = .started s ∨ e.body = .resumed s →
      (playbackOf (applySimulationEvent p e)).isPlaying = true) ∧
    (∀ s : SimulationStatus, e.body = .paused s ∨ e.body = .stopped s →
      (playbackOf (applySimulationEvent p e)).isPlaying = false) ∧
    (∀ t : ℚ, e.body = .tick t →
      (playbackOf (applySimulationEvent p e)).cursorTick = some t) := by
  rcases e with ⟨i, pid, ts, body⟩
  cases body <;>
    refine ⟨rfl, fun s hs => ?_, fun s hs => ?_, fun t ht => ?_⟩ <;>
    first
      | (rcases hs with h | h <;> cases h <;> rfl)
      | (cases ht; rfl)
      | (cases ht)

/-- Witness for C10 with concrete started and tick events. -/
theorem claim_C10_witness :
    (playbackOf (applySimulationEvent sampleProject sampleStartEvent)).isPlaying = true ∧
    (playbackOf (applySimulationEvent sampleProject sampleTickEvent)).cursorTick = some 5 :=
  ⟨(claim_C10_playback sampleProject sampleStartEvent).2.1 .running (Or.inl rfl),
   (claim_C10_playback sampleProject sampleTickEvent).2.2.2 5 rfl⟩

/-- Counterexample for C6 as stated: a `simulation.metrics` event (an event of
a kind other than `packet.dropped`) does change `droppedPackets`. -/
theorem claim_C6_counterexample :
    ¬ ((metricsOf (applySimulationEvent sampleProject sampleMetricsEvent)).droppedPackets =
        (metricsOf sampleProject).droppedPackets) := by decide

/-- Claim C6 (amended): `droppedPackets` increases by exactly 1 per
`packet.dropped` event, is replaced wholesale by `simulation.metrics` events,
and is unaffected by every other event kind. -/
theorem claim_C6_amended (p : Project) (e : SimulationEvent) :
    (∀ pk lid r, e.body = .packetDropped pk lid r →
      (metricsOf (applySimulationEvent p e)).droppedPackets =
        (metricsOf p).droppedPackets + 1) ∧
    (∀ m, e.body = .metricsReplaced m →
      (metricsOf (applySimulationEvent p e)).droppedPackets = m.droppedPackets) ∧
    (e.type ≠ "packet.dropped" → e.type ≠ "simulation.metrics" →
      (metricsOf (applySimulationEvent p e)).droppedPackets =
        (metricsOf p).droppedPackets) := by
  rcases e with ⟨i, pid, ts, body⟩
  cases body <;>
    refine ⟨fun pk lid r h => ?_, fun m h => ?_, fun h1 h2 => ?_⟩ <;>
    first
      | (cases h; rfl)
      | (cases h)
      | rfl
      | (exact absurd rfl h1)
      | (exact absurd rfl h2)

/-- Witness for the amended C6 at a concrete dropped packet. -/
theorem claim_C6_witness :
    (metricsOf (applySimulationEvent sampleProject sampleDropEvent)).droppedPackets =
      (metricsOf sampleProject).droppedPackets + 1 :=
  (claim_C6_amended sampleProject sampleDropEvent).1 samplePacket none "congestion" rfl

theorem option_map_eq_self {α : Type} {f : α → α} :
    ∀ {o : Option α}, (∀ x, o = some x → f x = x) → o.map f = o := by
  intro o
  cases o with
  | none => intro _; rfl
  | some a => intro h; simp only [Option.map_some', h a rfl]

/-- When the interface lookup misses, the per-device function of the
`interface.state-changed` branch is the identity. -/
theorem stateChangeDevice_eq_self (deviceId interfaceId : String) (st : InterfaceStatus)
    (d : Device) (h : d.id = deviceId → ∀ i ∈ d.interfaces.getD [], i.id ≠ interfaceId) :
    (if d.id = deviceId then
      { d with
        interfaces := d.interfaces.map (fun ifs =>
          ifs.map (fun iface =>
            if iface.id = interfaceId then { iface with status := st } else iface)) }
     else d) = d := by
  split
  case isTrue hd =>
    have hmap : d.interfaces.map (fun ifs =>
        ifs.map (fun iface =>
          if iface.id = interfaceId then { iface with status := st } else iface)) =
        d.interfaces := by
      apply option_map_eq_self
      intro l hl
      apply list_map_eq_self
      intro iface hi
      rw [if_neg]
      apply h hd iface
      rw [hl]
      exact hi
    rw [hmap]
  case isFalse => rfl

set_option maxRecDepth 8000 in
/-- Counterexample for C5 as stated: on an aggregate whose topology is not yet
normalized (here: absent layers), an `interface.state-changed` event with
unknown ids still replaces the topology with its normalized form. -/
theorem claim_C5_counterexample :
    ¬ ((applySimulationEvent sampleProject sampleStateChangeEvent).topology =
        sampleProject.topology) := by decide

/-- Claim C5 (amended): on an aggregate whose topology is already a fixed
point of `normalizeTopology`, an `interface.state-changed` event whose device
id or interface id fails to resolve leaves the topology field-for-field
unchanged. -/
theorem claim_C5_amended (p : Project) (e : SimulationEvent) (deviceId interfaceId : String)
    (st : InterfaceStatus)
    (hbody : e.body = .interfaceStateChanged deviceId interfaceId st)
    (hnorm : normalizeTopology p.topology = p.topology)
    (hmiss : ∀ d ∈ p.topology.devices.getD [], d.id = deviceId →
      ∀ i ∈ d.interfaces.getD [], i.id ≠ interfaceId) :
    (applySimulationEvent p e).topology = p.topology := by
  rcases e with ⟨i, pid, ts, body⟩
  cases hbody
  show applyInterfaceStateChange (normalizeTopology p.topology) deviceId interfaceId st =
    p.topology
  rw [hnorm]
  unfold applyInterfaceStateChange
  have hdev : p.topology.devices.map (fun ds =>
      ds.map (fun device =>
        if device.id = deviceId then
          { device with
            interfaces := device.interfaces.map (fun ifs =>
              ifs.map (fun iface =>
                if iface.id = interfaceId then { iface with status := st } else iface)) }
        else device)) = p.topology.devices := by
    apply option_map_eq_self
    intro ds hds
    apply list_map_eq_self
    intro d hd
    apply stateChangeDevice_eq_self
    intro hid
    apply hmiss d _ hid
    rw [hds]
    exact hd
  rw [hdev]

/-- Witness for the amended C5: a normalized aggregate and a state-change
event addressing a device id that does not exist. -/
theorem claim_C5_witness :
    (applySimulationEvent (normalizeProject sampleProject) sampleStateChangeEvent).topology =
      (normalizeProject sampleProject).topology :=
  claim_C5_amended (normalizeProject sampleProject) sampleStateChangeEvent
    "ghost-device" "ghost-interface" .up rfl
    (normalizeTopology_idem sampleProject.topology)
    (fun d hd => absurd hd (List.not_mem_nil d))

/-- The metrics effect of a `packet.transmitted` event, exactly as the
reducer's branch computes it. -/
theorem metricsOf_apply_transmit (p : Project) (e : SimulationEvent) (pk : Packet)
    (lid : String) (L : ℚ) (h : e.body = .packetTransmitted pk lid L) :
    metricsOf (applySimulationEvent p e) =
      { metricsOf p with
        totalPackets := (metricsOf p).totalPackets + 1
        averageLatencyMs :=
          if (metricsOf p).totalPackets = 0 then L
          else ((metricsOf p).averageLatencyMs * (metricsOf p).totalPackets + L) /
            ((metricsOf p).totalPackets + 1) } := by
  rcases e with ⟨i, pid, ts, body⟩
  cases h
  rfl

/-- Running-mean invariant of the reducer over a block of `packet.transmitted`
events: the totals count the packets and the average stays the exact mean. -/
theorem transmit_foldl_metrics (es : List SimulationEvent) : ∀ (p : Project) (n : ℕ) (s : ℚ),
    (∀ e ∈ es, e.isPacketTransmitted = true) →
    (metricsOf p).totalPackets = (n : ℚ) →
    (metricsOf p).averageLatencyMs = s / (n : ℚ) →
    (n = 0 → s = 0) →
    (metricsOf (List.foldl applySimulationEvent p es)).totalPackets =
      ((n + es.length : ℕ) : ℚ) ∧
    (metricsOf (List.foldl applySimulationEvent p es)).averageLatencyMs =
      (s + (es.map SimulationEvent.latencyOf).sum) / ((n + es.length : ℕ) : ℚ) := by
  induction es with
  | nil =>
    intro p n s _ h1 h2 _
    constructor
    · simpa using h1
    · simpa using h2
  | cons e t ih =>
    intro p n s hall h1 h2 h0
    have he := hall e (List.mem_cons_self e t)
    obtain ⟨pk, lid, L, hbody⟩ : ∃ pk lid L, e.body = .packetTransmitted pk lid L := by
      rcases e with ⟨i, pid, ts, body⟩
      cases body <;>
        first
          | exact ⟨_, _, _, rfl⟩
          | simp [SimulationEvent.isPacketTransmitted] at he
    have hstep := metricsOf_apply_transmit p e pk lid L hbody
    have h1' : (metricsOf (applySimulationEvent p e)).totalPackets = ((n + 1 : ℕ) : ℚ) := by
      rw [hstep]
      push_cast
      simp [h1]
    have h2' : (metricsOf (applySimulationEvent p e)).averageLatencyMs =
        (s + L) / ((n + 1 : ℕ) : ℚ) := by
      rw [hstep]
      simp only [h1, h2]
      by_cases hn : n = 0
      · subst hn
        rw [if_pos (by norm_num), h0 rfl]
        norm_num
      · have hnq : ((n : ℚ)) ≠ 0 := Nat.cast_ne_zero.mpr hn
        rw [if_neg hnq, div_mul_cancel₀ s hnq]
        push_cast
        ring
    have hL : SimulationEvent.latencyOf e = L := by
      simp [SimulationEvent.latencyOf, hbody]
    obtain ⟨ha, hb⟩ := ih (applySimulationEvent p e) (n + 1) (s + L)
      (fun x hx => hall x (List.mem_cons_of_mem _ hx)) h1' h2'
      (fun h => absurd h (Nat.succ_ne_zero n))
    constructor
    · rw [List.foldl_cons, ha]
      congr 1
      simp only [List.length_cons]
      omega
    · rw [List.foldl_cons, hb, List.map_cons, List.sum_cons, hL]
      simp only [List.length_cons]
      push_cast
      ring_nf

/-- Claim C2: starting from the initial zero metrics, the first
`packet.transmitted` event with latency `L` makes `averageLatencyMs` exactly
`L`, and after any block of `packet.transmitted` events (and no other kind)
`averageLatencyMs` is exactly the arithmetic mean of the latencies. -/
theorem claim_C2_average_latency (p : Project)
    (hm : metricsOf p = createInitialSimulationMetrics) :
    (∀ e pk lid L, e.body = .packetTransmitted pk lid L →
      (metricsOf (applySimulationEvent p e)).averageLatencyMs = L) ∧
    (∀ es : List SimulationEvent, (∀ e ∈ es, e.isPacketTransmitted = true) →
      (metricsOf (List.foldl applySimulationEvent p es)).averageLatencyMs =
        (es.map SimulationEvent.latencyOf).sum / (es.length : ℚ)) := by
  constructor
  · intro e pk lid L hbody
    rw [metricsOf_apply_transmit p e pk lid L hbody]
    simp [hm, createInitialSimulationMetrics]
  · intro es hall
    have h := (transmit_foldl_metrics es p 0 0 hall
      (by rw [hm]; norm_num [createInitialSimulationMetrics])
      (by rw [hm]; norm_num [createInitialSimulationMetrics])
      (fun _ => rfl)).2
    simpa using h

/-- Witness for C2: latencies 10 then 30 give exact averages 10 and 20. -/
theorem claim_C2_witness :
    (metricsOf (applySimulationEvent sampleProject
        (sampleTransmitEvent "evt-t1" 10))).averageLatencyMs = 10 ∧
    (metricsOf (List.foldl applySimulationEvent sampleProject
        [sampleTransmitEvent "evt-t1" 10, sampleTransmitEvent "evt-t2" 30])).averageLatencyMs =
      20 := by
  constructor
  · exact (claim_C2_average_latency sampleProject (by decide)).1
      (sampleTransmitEvent "evt-t1" 10) samplePacket "link-1" 10 rfl
  · have h := (claim_C2_average_latency sampleProject (by decide)).2
      [sampleTransmitEvent "evt-t1" 10, sampleTransmitEvent "evt-t2" 30] (by decide)
    rw [h]
    norm_num [SimulationEvent.latencyOf, sampleTransmitEvent]

def sampleUpdateRequest : ProjectUpdateRequest :=
  { name := some "Renamed"
    description := none
    topology := none
    simulation := none
    playback := none
    scenarios := none
    tags := none }

/-- Claim C8: `recordEvent` and `update` on an id absent from the store's map
report not-found (`none`) and leave the map unchanged. -/
theorem claim_C8_notFound (store : InMemoryProjectStore) (projectId : String)
    (e : SimulationEvent) (payload : ProjectUpdateRequest) (now : String)
    (h : mapGet store.projects projectId = none) :
    store.recordEvent projectId e = (none, store) ∧
    store.update projectId payload now = (none, store) := by
  unfold InMemoryProjectStore.recordEvent InMemoryProjectStore.update
  rw [h]
  exact ⟨rfl, rfl⟩

/-- Witness for C8 on the empty store. -/
theorem claim_C8_witness :
    InMemoryProjectStore.recordEvent ⟨[]⟩ "missing" sampleTickEvent =
      (none, (⟨[]⟩ : InMemoryProjectStore)) ∧
    InMemoryProjectStore.update ⟨[]⟩ "missing" sampleUpdateRequest "t2" =
      (none, (⟨[]⟩ : InMemoryProjectStore)) :=
  claim_C8_notFound ⟨[]⟩ "missing" sampleTickEvent sampleUpdateRequest "t2" rfl

def sampleCreateRequest : ProjectCreateRequest :=
  { name := "Sample"
    description := none
    topology := none
    tags := none
    scenarios := none }

/-- An aggregate whose metrics already record seven dropped packets. -/
def sampleDirtyProject : Project :=
  { sampleProject with
    simulation := some
      { status := .idle
        currentTick := 0
        startedAt := none
        stoppedAt := none
        lastEventId := none
        metrics :=
          { totalPackets := 0, droppedPackets := 7, averageLatencyMs := 0,
            throughputMbps := 0 } } }

/-- The metrics effect of a `packet.dropped` event, exactly as the reducer's
branch computes it. -/
theorem metricsOf_apply_drop (p : Project) (e : SimulationEvent) (pk : Packet)
    (lid : Option String) (r : String) (h : e.body = .packetDropped pk lid r) :
    metricsOf (applySimulationEvent p e) =
      { metricsOf p with
        droppedPackets := (metricsOf p).droppedPackets + 1 } := by
  rcases e with ⟨i, pid, ts, body⟩
  cases h
  rfl

/-- Counterexample for C1 as stated: for an aggregate that does not itself
start from the fresh default state (seven packets already dropped), replaying
the final event log against a fresh default aggregate does not reproduce the
final aggregate. -/
theorem claim_C1_counterexample :
    ¬ (List.foldl applySimulationEvent
        (createInitialProject "p-1" "2024-01-01T00:00:00.000Z" sampleCreateRequest)
        (eventLogOf (applySimulationEvent sampleDirtyProject sampleDropEvent)) =
      applySimulationEvent sampleDirtyProject sampleDropEvent) := by
  intro h
  have h2 := congrArg (fun q => (metricsOf q).droppedPackets) h
  simp only at h2
  have hlog : eventLogOf (applySimulationEvent sampleDirtyProject sampleDropEvent) =
      [sampleDropEvent] := by
    simp [eventLogOf, applySimulationEvent, sampleDirtyProject, sampleProject,
      MAX_EVENT_LOG_ENTRIES]
  rw [hlog] at h2
  have hA : (metricsOf (applySimulationEvent sampleDirtyProject
      sampleDropEvent)).droppedPackets = 8 := by
    rw [metricsOf_apply_drop sampleDirtyProject sampleDropEvent samplePacket none
      "congestion" rfl]
    show (metricsOf sampleDirtyProject).droppedPackets + 1 = 8
    rw [show (metricsOf sampleDirtyProject).droppedPackets = 7 from rfl]
    norm_num
  have hB : (metricsOf (List.foldl applySimulationEvent
      (createInitialProject "p-1" "2024-01-01T00:00:00.000Z" sampleCreateRequest)
      [sampleDropEvent])).droppedPackets = 1 := by
    rw [List.foldl_cons, List.foldl_nil,
      metricsOf_apply_drop _ sampleDropEvent samplePacket none "congestion" rfl]
    show (metricsOf (createInitialProject "p-1" "2024-01-01T00:00:00.000Z"
      sampleCreateRequest)).droppedPackets + 1 = 1
    rw [show (metricsOf (createInitialProject "p-1" "2024-01-01T00:00:00.000Z"
      sampleCreateRequest)).droppedPackets = 0 from rfl]
    norm_num
  rw [hA, hB] at h2
  norm_num at h2

/-- The event log accumulated by a fold of the reducer, while the 500-entry
bound is not yet hit. -/
theorem foldl_eventLog (es : List SimulationEvent) :
    ∀ (p : Project) (l : List SimulationEvent), p.eventLog = some l →
    (l ++ es).length ≤ MAX_EVENT_LOG_ENTRIES →
    (List.foldl applySimulationEvent p es).eventLog = some (l ++ es) := by
  induction es with
  | nil =>
    intro p l h _
    simpa using h
  | cons e t ih =>
    intro p l h hlen
    have hgetD : p.eventLog.getD [] = l := by rw [h]; rfl
    have hform : (applySimulationEvent p e).eventLog =
        some (if (p.eventLog.getD [] ++ [e]).length > MAX_EVENT_LOG_ENTRIES then
          sliceLast MAX_EVENT_LOG_ENTRIES (p.eventLog.getD [] ++ [e])
        else p.eventLog.getD [] ++ [e]) := by
      simp [applySimulationEvent]
    have hle : ¬ ((l ++ [e]).length > MAX_EVENT_LOG_ENTRIES) := by
      simp only [List.length_append, List.length_cons] at hlen ⊢
      simp only [List.length_nil]
      omega
    have hstep : (applySimulationEvent p e).eventLog = some (l ++ [e]) := by
      rw [hform, hgetD, if_neg hle]
    rw [List.foldl_cons]
    have := ih (applySimulationEvent p e) (l ++ [e]) hstep
      (by simpa [List.append_assoc] using hlen)
    simpa [List.append_assoc] using this

/-- Claim C1 (amended): starting from the fresh default aggregate produced by
`createInitialProject`, for any valid event sequence of at most 500 events,
replaying the final aggregate's full event log against the same fresh default
aggregate reproduces the final aggregate. -/
theorem claim_C1_amended (freshId now : String) (payload : ProjectCreateRequest)
    (es : List SimulationEvent) (hlen : es.length ≤ MAX_EVENT_LOG_ENTRIES) :
    List.foldl applySimulationEvent (createInitialProject freshId now payload)
      (eventLogOf (List.foldl applySimulationEvent
        (createInitialProject freshId now payload) es)) =
      List.foldl applySimulationEvent (createInitialProject freshId now payload) es := by
  have h0 : (createInitialProject freshId now payload).eventLog = some [] := by
    simp [createInitialProject, normalizeProject, sliceLast]
  have hlog := foldl_eventLog es (createInitialProject freshId now payload) [] h0
    (by simpa using hlen)
  have hev : eventLogOf (List.foldl applySimulationEvent
      (createInitialProject freshId now payload) es) = es := by
    simp [eventLogOf, hlog]
  rw [hev]

/-- Witness for the amended C1 with one dropped-packet event. -/
theorem claim_C1_witness :
    List.foldl applySimulationEvent
      (createInitialProject "p-1" "2024-01-01T00:00:00.000Z" sampleCreateRequest)
      (eventLogOf (List.foldl applySimulationEvent
        (createInitialProject "p-1" "2024-01-01T00:00:00.000Z" sampleCreateRequest)
        [sampleDropEvent])) =
      List.foldl applySimulationEvent
        (createInitialProject "p-1" "2024-01-01T00:00:00.000Z" sampleCreateRequest)
        [sampleDropEvent] :=
  claim_C1_amended "p-1" "2024-01-01T00:00:00.000Z" sampleCreateRequest [sampleDropEvent]
    (by norm_num [MAX_EVENT_LOG_ENTRIES])

end CiscoPT
